import Mathlib

/-!
Verification of the ReactFiber core (node construction and double-buffer
clone).  Shallow embedding of `src/renderers/shared/fiber/ReactFiber.js`.

Fibers are mutable JavaScript objects linked by reference (`child`, `sibling`,
`alternate`, ...), so we model a heap: a list of fiber records addressed by a
numeric id. Reference-valued fields hold `Option FiberId`; opaque JS values
(`type`, `stateNode`, `ref`, `pendingProps`, ...) hold a `JSVal`.
-/

/-- Opaque JavaScript values as far as this module observes them:
`typeof`, `null`-ness, string identity, and (for functions) truthiness of
`prototype && prototype.isReactComponent`.  `emptyObj` stands for the empty
object literal written in `createFiberFromYield`.  `object id` is a reference
to a heap object (fibers are the heap objects this module manipulates). -/
inductive JSVal where
  | null : JSVal
  | undefined : JSVal
  | boolean : Bool → JSVal
  | number : Int → JSVal
  | string : String → JSVal
  | func : (protoIsReactComponent : Bool) → JSVal
  | object : (id : Nat) → JSVal
  | emptyObj : JSVal
deriving DecidableEq, Repr

/-- JavaScript `typeof` on the values above (`typeof null` is `"object"`). -/
def jsTypeof : JSVal → String
  | .null => "object"
  | .undefined => "undefined"
  | .boolean _ => "boolean"
  | .number _ => "number"
  | .string _ => "string"
  | .func _ => "function"
  | .object _ => "object"
  | .emptyObj => "object"

/-- Modelled from the spec: the six tags of `ReactTypeOfWork` imported at the
top of `ReactFiber.js` (the module itself is not part of the sources; the
spec lists exactly these kinds). -/
inductive TypeOfWork where
  | IndeterminateComponent
  | ClassComponent
  | HostContainer
  | HostComponent
  | CoroutineComponent
  | YieldComponent
deriving DecidableEq, Repr

/-- Modelled from the spec: priority levels are an opaque totally ordered
value with a distinguished no-work sentinel (`ReactPriorityLevel` is not part
of the sources). -/
abbrev PriorityLevel := Nat

/-- Modelled from the spec: the sentinel meaning "no pending work". -/
def NoWork : PriorityLevel := 0

/-- Heap address of a fiber object. -/
abbrev FiberId := Nat

/-- The `Fiber` record of `ReactFiber.js` (the `Instance` part merged in, as
in the source).  The JS field `return` is spelled `ret` (`return` is a Lean
keyword). -/
structure Fiber where
  tag : TypeOfWork
  key : Option String
  type : JSVal
  stateNode : JSVal
  ret : Option FiberId
  child : Option FiberId
  sibling : Option FiberId
  ref : JSVal
  pendingProps : JSVal
  memoizedProps : JSVal
  output : JSVal
  nextEffect : Option FiberId
  firstEffect : Option FiberId
  lastEffect : Option FiberId
  pendingWorkPriority : PriorityLevel
  alternate : Option FiberId
  childInProgress : Option FiberId
deriving DecidableEq, Repr

/-- The object heap: fiber records addressed by their index. -/
structure Heap where
  fibers : List Fiber
deriving DecidableEq, Repr

def Heap.size (h : Heap) : Nat := h.fibers.length

def Heap.get? (h : Heap) (i : FiberId) : Option Fiber := h.fibers[i]?

def Heap.set (h : Heap) (i : FiberId) (f : Fiber) : Heap := ⟨h.fibers.set i f⟩

def Heap.alloc (h : Heap) (f : Fiber) : Heap × FiberId :=
  (⟨h.fibers ++ [f]⟩, h.fibers.length)

/-- Embeds `createFiber` of `ReactFiber.js`: a bare node of the given tag and key,
every other field in its zero/empty state. -/
def createFiber (tag : TypeOfWork) (key : Option String) : Fiber :=
  { tag := tag
    key := key
    type := .null
    stateNode := .null
    ret := none
    child := none
    sibling := none
    ref := .null
    pendingProps := .null
    memoizedProps := .null
    output := .null
    nextEffect := none
    firstEffect := none
    lastEffect := none
    pendingWorkPriority := NoWork
    childInProgress := none
    alternate := none }

/-- Embeds `shouldConstruct(Component)`: truthiness of
`Component.prototype && Component.prototype.isReactComponent`.  In this
module it is only ever applied to function values. -/
def shouldConstruct (Component : JSVal) : Bool :=
  match Component with
  | .func proto => proto
  | _ => false

/-- Embeds `cloneFiber(fiber, priorityLevel)`.  Returns the updated heap and the id
of the alternate; `none` only when an id dangles (impossible in JS, where
references always point at live objects).  The `ref := alt.ref` updates
mirror the source's `alt.ref = alt.ref;` lines verbatim. -/
def cloneFiber (h : Heap) (fid : FiberId) (priorityLevel : PriorityLevel) :
    Option (Heap × FiberId) :=
  match h.get? fid with
  | none => none
  | some fiber =>
    match fiber.alternate with
    | some aid =>
      match h.get? aid with
      | none => none
      | some alt =>
        let alt := { alt with
          stateNode := fiber.stateNode
          child := fiber.child
          childInProgress := fiber.childInProgress
          sibling := fiber.sibling
          ref := alt.ref
          pendingProps := fiber.pendingProps
          pendingWorkPriority := priorityLevel
          nextEffect := none
          firstEffect := none
          lastEffect := none }
        some (h.set aid alt, aid)
    | none =>
      let alt := createFiber fiber.tag fiber.key
      let alt := { alt with
        type := fiber.type
        stateNode := fiber.stateNode
        child := fiber.child
        childInProgress := fiber.childInProgress
        sibling := fiber.sibling
        ref := alt.ref
        pendingProps := fiber.pendingProps
        pendingWorkPriority := priorityLevel }
      let (h1, aid) := h.alloc { alt with alternate := some fid }
      let h2 := h1.set fid { fiber with alternate := some aid }
      some (h2, aid)

/-- Embeds `createHostContainerFiber()`. -/
def createHostContainerFiber : Fiber :=
  createFiber .HostContainer none

/-- The `{type, key, props}` shape consumed from the element layer. -/
structure ReactElement where
  type : JSVal
  key : Option String
  props : JSVal
deriving DecidableEq, Repr

/-- Result of `createFiberFromElementType`: either a freshly created fiber
record, or the argument itself passed through ("currently assumed to be a
continuation and therefore is a fiber already"). -/
inductive ElemTypeFiber where
  | created : Fiber → ElemTypeFiber
  | passthrough : JSVal → ElemTypeFiber
deriving DecidableEq, Repr

/-- Embeds `createFiberFromElementType(type, key)`; `Except.error` is the
`throw new Error('Unknown component type: ' + typeof type)` path. -/
def createFiberFromElementType (type : JSVal) (key : Option String) :
    Except String ElemTypeFiber :=
  if jsTypeof type = "function" then
    let fiber := if shouldConstruct type then createFiber .ClassComponent key
                 else createFiber .IndeterminateComponent key
    .ok (.created { fiber with type := type })
  else if jsTypeof type = "string" then
    .ok (.created { createFiber .HostComponent key with type := type })
  else if jsTypeof type = "object" ∧ type ≠ .null then
    .ok (.passthrough type)
  else
    .error ("Unknown component type: " ++ jsTypeof type)

/-- Embeds `createFiberFromElement(element, priorityLevel)`: resolve the type, then
set `pendingProps` and `pendingWorkPriority` on the result and return it.
A `created` record is placed in the heap (JS allocates it in `createFiber`);
a `passthrough` object is mutated in place at its existing address.
`none` only when a passthrough value is not a live heap object. -/
def createFiberFromElement (h : Heap) (element : ReactElement)
    (priorityLevel : PriorityLevel) : Option (Except String (Heap × FiberId)) :=
  match createFiberFromElementType element.type element.key with
  | .error e => some (.error e)
  | .ok (.created f) =>
    let f := { f with pendingProps := element.props
                      pendingWorkPriority := priorityLevel }
    some (.ok (h.alloc f))
  | .ok (.passthrough (.object id)) =>
    match h.get? id with
    | none => none
    | some f =>
      let f := { f with pendingProps := element.props
                        pendingWorkPriority := priorityLevel }
      some (.ok (h.set id f, id))
  | .ok (.passthrough _) => none

/-- The `{key}` shape consumed from a yield description. -/
structure ReactYield where
  key : Option String
deriving DecidableEq, Repr

/-- Embeds `createFiberFromYield(yieldNode, priorityLevel)`: note the source never
reads `priorityLevel`. -/
def createFiberFromYield (yieldNode : ReactYield)
    (priorityLevel : PriorityLevel) : Fiber :=
  { createFiber .YieldComponent yieldNode.key with pendingProps := .emptyObj }

/-! ## Heap lemmas -/

theorem Heap.lt_size_of_get? {h : Heap} {i : FiberId} {f : Fiber}
    (hg : h.get? i = some f) : i < h.size := by
  simp only [Heap.get?] at hg
  exact (List.getElem?_eq_some_iff.1 hg).1

theorem Heap.size_set (h : Heap) (i : FiberId) (f : Fiber) :
    (h.set i f).size = h.size := by
  simp [Heap.set, Heap.size]

theorem Heap.get?_set_self (h : Heap) (i : FiberId) (f : Fiber)
    (hi : i < h.size) : (h.set i f).get? i = some f := by
  simp [Heap.set, Heap.get?, List.getElem?_set_self (by simpa [Heap.size] using hi)]

theorem Heap.get?_set_ne (h : Heap) {i j : FiberId} (f : Fiber) (hij : i ≠ j) :
    (h.set i f).get? j = h.get? j := by
  simp [Heap.set, Heap.get?, List.getElem?_set_ne hij]

theorem Heap.size_alloc (h : Heap) (f : Fiber) :
    ((h.alloc f).1).size = h.size + 1 := by
  simp [Heap.alloc, Heap.size]

theorem Heap.get?_alloc_self (h : Heap) (f : Fiber) :
    ((h.alloc f).1).get? h.size = some f := by
  simp [Heap.alloc, Heap.get?, Heap.size, List.getElem?_concat_length]

theorem Heap.get?_alloc_lt (h : Heap) (f : Fiber) {i : FiberId}
    (hi : i < h.size) : ((h.alloc f).1).get? i = h.get? i := by
  simp [Heap.alloc, Heap.get?, List.getElem?_append_left (by simpa [Heap.size] using hi)]

/-! ## Evaluation of the two branches of `cloneFiber` -/

/-- Refresh branch: the existing alternate is updated in place. -/
theorem cloneFiber_refresh {h : Heap} {fid aid : FiberId} {fiber alt : Fiber}
    (hf : h.get? fid = some fiber) (halt : fiber.alternate = some aid)
    (ha : h.get? aid = some alt) (p : PriorityLevel) :
    cloneFiber h fid p = some (h.set aid { alt with
      stateNode := fiber.stateNode
      child := fiber.child
      childInProgress := fiber.childInProgress
      sibling := fiber.sibling
      pendingProps := fiber.pendingProps
      pendingWorkPriority := p
      nextEffect := none
      firstEffect := none
      lastEffect := none }, aid) := by
  simp [cloneFiber, hf, halt, ha]

/-- The record the fresh branch of `cloneFiber` allocates. -/
def freshAlternate (fiber : Fiber) (fid : FiberId) (p : PriorityLevel) : Fiber :=
  { createFiber fiber.tag fiber.key with
    type := fiber.type
    stateNode := fiber.stateNode
    child := fiber.child
    childInProgress := fiber.childInProgress
    sibling := fiber.sibling
    pendingProps := fiber.pendingProps
    pendingWorkPriority := p
    alternate := some fid }

/-- Fresh branch: a new alternate is allocated and linked symmetrically. -/
theorem cloneFiber_fresh {h : Heap} {fid : FiberId} {fiber : Fiber}
    (hf : h.get? fid = some fiber) (halt : fiber.alternate = none)
    (p : PriorityLevel) :
    cloneFiber h fid p = some
      (((h.alloc (freshAlternate fiber fid p)).1).set fid
        { fiber with alternate := some h.size }, h.size) := by
  simp [cloneFiber, hf, halt, freshAlternate, Heap.alloc, Heap.size, createFiber]

/-! ## Concrete scenarios used by witnesses and counterexamples -/

/-- A one-fiber heap: a host component with no alternate. -/
def heap1 : Heap := ⟨[createFiber .HostComponent none]⟩

/-- Result of the first clone on `heap1`. -/
def clone1 : Heap × FiberId := (cloneFiber heap1 0 1).getD (⟨[]⟩, 0)

/-- Result of cloning again, at another priority, after `clone1`. -/
def clone2 : Heap × FiberId := (cloneFiber clone1.1 0 2).getD (⟨[]⟩, 0)

/-- A one-fiber heap whose fiber carries a non-null `ref` callback. -/
def heapWithRef : Heap := ⟨[{ createFiber .HostComponent none with ref := .func false }]⟩

/-- Result of cloning the fiber of `heapWithRef`. -/
def cloneWithRef : Heap × FiberId := (cloneFiber heapWithRef 0 1).getD (⟨[]⟩, 0)

/-! ## Claims -/

/-- C1: refuted on the code.  The source lines `alt.ref = alt.ref;` are
self-assignments, so `ref` is never copied from the cloned fiber: cloning a
fiber whose `ref` is a non-null callback produces an alternate whose `ref`
is null. -/
theorem cloneFiber_ref_self_assignment :
    cloneFiber heapWithRef 0 1 = some cloneWithRef ∧
    (heapWithRef.get? 0).map (·.ref) = some (JSVal.func false) ∧
    ((cloneWithRef.1).get? cloneWithRef.2).map (·.ref) = some JSVal.null := by
  decide

/-- C4: after any `cloneFiber` call, whichever branch was taken, the returned
alternate's `nextEffect`, `firstEffect` and `lastEffect` are all empty. -/
theorem cloneFiber_resets_effect_list (h : Heap) (fid : FiberId)
    (p : PriorityLevel) (h' : Heap) (a : FiberId)
    (hc : cloneFiber h fid p = some (h', a)) :
    (h'.get? a).map (·.nextEffect) = some none ∧
    (h'.get? a).map (·.firstEffect) = some none ∧
    (h'.get? a).map (·.lastEffect) = some none := by
  cases hf : h.get? fid with
  | none => simp [cloneFiber, hf] at hc
  | some fiber =>
    cases halt : fiber.alternate with
    | some aid =>
      cases ha : h.get? aid with
      | none => simp [cloneFiber, hf, halt, ha] at hc
      | some alt =>
        rw [cloneFiber_refresh hf halt ha p] at hc
        obtain ⟨rfl, rfl⟩ := by simpa [eq_comm] using hc
        simp [Heap.get?_set_self _ _ _ (Heap.lt_size_of_get? ha)]
    | none =>
      rw [cloneFiber_fresh hf halt p] at hc
      obtain ⟨rfl, rfl⟩ := by simpa [eq_comm] using hc
      have hfid : fid < h.size := Heap.lt_size_of_get? hf
      rw [Heap.get?_set_ne _ _ (Nat.ne_of_lt hfid)]
      simp [Heap.get?_alloc_self, freshAlternate, createFiber]

/-- Witness for C4 at a concrete heap. -/
theorem cloneFiber_resets_effect_list_witness :
    ((clone1.1).get? clone1.2).map (·.nextEffect) = some none ∧
    ((clone1.1).get? clone1.2).map (·.firstEffect) = some none ∧
    ((clone1.1).get? clone1.2).map (·.lastEffect) = some none :=
  cloneFiber_resets_effect_list heap1 0 1 clone1.1 clone1.2 (by decide)

/-- C8: a fiber built from a yield description has kind YieldComponent, an
empty-object `pendingProps`, and `pendingWorkPriority` left at the no-work
sentinel whatever priority the caller supplied. -/
theorem createFiberFromYield_no_priority :
    ∀ (y : ReactYield) (p : PriorityLevel),
      (createFiberFromYield y p).tag = TypeOfWork.YieldComponent ∧
      (createFiberFromYield y p).pendingProps = JSVal.emptyObj ∧
      (createFiberFromYield y p).pendingWorkPriority = NoWork :=
  fun _ _ => ⟨rfl, rfl, rfl⟩

/-- C9: the root container fiber has null key and type and kind
HostContainer, and every fiber from the factory starts with all relational
fields empty, null value fields, and the no-work priority. -/
theorem createFiber_initial_state :
    createHostContainerFiber.key = none ∧
    createHostContainerFiber.type = JSVal.null ∧
    createHostContainerFiber.tag = TypeOfWork.HostContainer ∧
    ∀ (tag : TypeOfWork) (key : Option String),
      (createFiber tag key).ret = none ∧
      (createFiber tag key).child = none ∧
      (createFiber tag key).sibling = none ∧
      (createFiber tag key).childInProgress = none ∧
      (createFiber tag key).nextEffect = none ∧
      (createFiber tag key).firstEffect = none ∧
      (createFiber tag key).lastEffect = none ∧
      (createFiber tag key).alternate = none ∧
      (createFiber tag key).ref = JSVal.null ∧
      (createFiber tag key).pendingProps = JSVal.null ∧
      (createFiber tag key).memoizedProps = JSVal.null ∧
      (createFiber tag key).output = JSVal.null ∧
      (createFiber tag key).stateNode = JSVal.null ∧
      (createFiber tag key).pendingWorkPriority = NoWork :=
  ⟨rfl, rfl, rfl, fun _ _ =>
    ⟨rfl, rfl, rfl, rfl, rfl, rfl, rfl, rfl, rfl, rfl, rfl, rfl, rfl, rfl⟩⟩

/-- C2: cloning a node whose pairing (if any) is symmetric yields an
alternate `a` with `a.alternate == n` and `n.alternate == a`; when the
pairing already existed the same alternate object is returned and nothing
is reallocated. -/
theorem cloneFiber_pairing_symmetric (h : Heap) (fid : FiberId)
    (p : PriorityLevel) (fiber : Fiber) (hf : h.get? fid = some fiber)
    (hsym : fiber.alternate.elim True
      (fun aid => (h.get? aid).map (·.alternate) = some (some fid)))
    (h' : Heap) (a : FiberId) (hc : cloneFiber h fid p = some (h', a)) :
    (h'.get? a).map (·.alternate) = some (some fid) ∧
    (h'.get? fid).map (·.alternate) = some (some a) ∧
    (fiber.alternate = none ∨ (fiber.alternate = some a ∧ h'.size = h.size)) := by
  cases halt : fiber.alternate with
  | some aid =>
    rw [halt] at hsym
    simp only [Option.elim] at hsym
    cases ha : h.get? aid with
    | none => rw [ha] at hsym; simp at hsym
    | some alt =>
      rw [ha] at hsym
      simp only [Option.map_some', Option.some.injEq] at hsym
      rw [cloneFiber_refresh hf halt ha p] at hc
      rw [Option.some.injEq, Prod.mk.injEq] at hc
      obtain ⟨rfl, rfl⟩ := hc
      have haid := Heap.lt_size_of_get? ha
      refine ⟨?_, ?_, .inr ⟨rfl, Heap.size_set ..⟩⟩
      · simp [Heap.get?_set_self _ _ _ haid, hsym]
      · by_cases hfa : aid = fid
        · subst hfa
          simp [Heap.get?_set_self _ _ _ haid, hsym]
        · rw [Heap.get?_set_ne _ _ hfa, hf]
          simp [halt]
  | none =>
    rw [cloneFiber_fresh hf halt p] at hc
    rw [Option.some.injEq, Prod.mk.injEq] at hc
    obtain ⟨rfl, rfl⟩ := hc
    have hfid := Heap.lt_size_of_get? hf
    refine ⟨?_, ?_, .inl rfl⟩
    · rw [Heap.get?_set_ne _ _ (Nat.ne_of_lt hfid), Heap.get?_alloc_self]
      simp [freshAlternate]
    · have hlt : fid < ((h.alloc (freshAlternate fiber fid p)).1).size := by
        rw [Heap.size_alloc]; exact Nat.lt_succ_of_lt hfid
      rw [Heap.get?_set_self _ _ _ hlt]
      simp

/-- Witness for C2 at a concrete heap. -/
theorem cloneFiber_pairing_symmetric_witness :
    ((clone1.1).get? clone1.2).map (·.alternate) = some (some 0) ∧
    ((clone1.1).get? 0).map (·.alternate) = some (some clone1.2) ∧
    ((createFiber .HostComponent none).alternate = none ∨
      ((createFiber .HostComponent none).alternate = some clone1.2 ∧
        (clone1.1).size = heap1.size)) :=
  cloneFiber_pairing_symmetric heap1 0 1 (createFiber .HostComponent none)
    (by decide) trivial clone1.1 clone1.2 (by decide)

/-- A two-fiber heap forming a symmetric alternate pair; fiber 0 carries a
distinguished `stateNode`. -/
def heapPair : Heap := ⟨[
  { createFiber .HostComponent none with stateNode := .object 5, alternate := some 1 },
  { createFiber .HostComponent none with alternate := some 0 }]⟩

/-- Result of cloning fiber 0 of `heapPair`. -/
def clonePair : Heap × FiberId := (cloneFiber heapPair 0 3).getD (⟨[]⟩, 0)

/-- C7: after any `cloneFiber` call the cloned node and its alternate point
at each other and observe the same `stateNode`, on both branches. -/
theorem cloneFiber_stateNode_shared (h : Heap) (fid : FiberId)
    (p : PriorityLevel) (fiber : Fiber) (hf : h.get? fid = some fiber)
    (hsym : fiber.alternate.elim True
      (fun aid => (h.get? aid).map (·.alternate) = some (some fid)))
    (h' : Heap) (a : FiberId) (hc : cloneFiber h fid p = some (h', a)) :
    (h'.get? fid).map (·.alternate) = some (some a) ∧
    (h'.get? a).map (·.alternate) = some (some fid) ∧
    (h'.get? a).map (·.stateNode) = (h'.get? fid).map (·.stateNode) := by
  cases halt : fiber.alternate with
  | some aid =>
    rw [halt] at hsym
    simp only [Option.elim] at hsym
    cases ha : h.get? aid with
    | none => rw [ha] at hsym; simp at hsym
    | some alt =>
      rw [ha] at hsym
      simp only [Option.map_some', Option.some.injEq] at hsym
      rw [cloneFiber_refresh hf halt ha p] at hc
      rw [Option.some.injEq, Prod.mk.injEq] at hc
      obtain ⟨rfl, rfl⟩ := hc
      have haid := Heap.lt_size_of_get? ha
      by_cases hfa : aid = fid
      · subst hfa
        refine ⟨?_, ?_, rfl⟩ <;>
          simp [Heap.get?_set_self _ _ _ haid, hsym]
      · rw [Heap.get?_set_ne _ _ hfa, hf,
          Heap.get?_set_self _ _ _ haid]
        simp [halt, hsym]
  | none =>
    rw [cloneFiber_fresh hf halt p] at hc
    rw [Option.some.injEq, Prod.mk.injEq] at hc
    obtain ⟨rfl, rfl⟩ := hc
    have hfid := Heap.lt_size_of_get? hf
    have hlt : fid < ((h.alloc (freshAlternate fiber fid p)).1).size := by
      rw [Heap.size_alloc]; exact Nat.lt_succ_of_lt hfid
    rw [Heap.get?_set_self _ _ _ hlt,
      Heap.get?_set_ne _ _ (Nat.ne_of_lt hfid), Heap.get?_alloc_self]
    simp [freshAlternate]

/-- Witness for C7 on the refresh branch of a symmetric pair. -/
theorem cloneFiber_stateNode_shared_witness :
    ((clonePair.1).get? 0).map (·.alternate) = some (some clonePair.2) ∧
    ((clonePair.1).get? clonePair.2).map (·.alternate) = some (some 0) ∧
    ((clonePair.1).get? clonePair.2).map (·.stateNode) =
      ((clonePair.1).get? 0).map (·.stateNode) :=
  cloneFiber_stateNode_shared heapPair 0 3
    { createFiber .HostComponent none with stateNode := .object 5, alternate := some 1 }
    (by decide)
    (show (heapPair.get? 1).map (·.alternate) = some (some 0) from by decide)
    clonePair.1 clonePair.2 (by decide)

/-- State after any successful `cloneFiber`: the node points at the returned
alternate, whose mutable fields now mirror the node's, whose priority is the
requested one, whose effect fields are empty, and at most one fiber was
allocated. -/
theorem cloneFiber_post (h : Heap) (fid : FiberId) (p : PriorityLevel)
    (h' : Heap) (a : FiberId) (hc : cloneFiber h fid p = some (h', a)) :
    ∃ F A, h'.get? fid = some F ∧ h'.get? a = some A ∧
      F.alternate = some a ∧
      A.stateNode = F.stateNode ∧ A.child = F.child ∧
      A.childInProgress = F.childInProgress ∧ A.sibling = F.sibling ∧
      A.pendingProps = F.pendingProps ∧ A.pendingWorkPriority = p ∧
      A.nextEffect = none ∧ A.firstEffect = none ∧ A.lastEffect = none ∧
      h'.size ≤ h.size + 1 := by
  cases hf : h.get? fid with
  | none => simp [cloneFiber, hf] at hc
  | some fiber =>
    cases halt : fiber.alternate with
    | some aid =>
      cases ha : h.get? aid with
      | none => simp [cloneFiber, hf, halt, ha] at hc
      | some alt =>
        rw [cloneFiber_refresh hf halt ha p] at hc
        rw [Option.some.injEq, Prod.mk.injEq] at hc
        obtain ⟨rfl, rfl⟩ := hc
        have haid := Heap.lt_size_of_get? ha
        by_cases hfa : fid = aid
        · subst hfa
          rw [hf] at ha
          obtain rfl : fiber = alt := Option.some.inj ha
          exact ⟨_, _, Heap.get?_set_self _ _ _ haid,
            Heap.get?_set_self _ _ _ haid, halt, rfl, rfl, rfl, rfl, rfl, rfl,
            rfl, rfl, rfl, by rw [Heap.size_set]; exact Nat.le_succ _⟩
        · refine ⟨fiber, _, ?_, Heap.get?_set_self _ _ _ haid, halt,
            rfl, rfl, rfl, rfl, rfl, rfl, rfl, rfl, rfl, ?_⟩
          · rw [Heap.get?_set_ne _ _ (Ne.symm hfa)]
            exact hf
          · rw [Heap.size_set]; exact Nat.le_succ _
    | none =>
      rw [cloneFiber_fresh hf halt p] at hc
      rw [Option.some.injEq, Prod.mk.injEq] at hc
      obtain ⟨rfl, rfl⟩ := hc
      have hfid := Heap.lt_size_of_get? hf
      have hlt : fid < ((h.alloc (freshAlternate fiber fid p)).1).size := by
        rw [Heap.size_alloc]; exact Nat.lt_succ_of_lt hfid
      refine ⟨{ fiber with alternate := some h.size }, freshAlternate fiber fid p,
        Heap.get?_set_self _ _ _ hlt, ?_, rfl, rfl, rfl, rfl, rfl, rfl, rfl,
        rfl, rfl, rfl, ?_⟩
      · rw [Heap.get?_set_ne _ _ (Nat.ne_of_lt hfid), Heap.get?_alloc_self]
      · rw [Heap.size_set, Heap.size_alloc]

/-- C3: cloning twice with no intervening change returns the identical
alternate object, allocates nothing on the second call, and changes nothing
on the alternate but `pendingWorkPriority` (its effect fields are reset but
were already empty). -/
theorem cloneFiber_idempotent (h : Heap) (fid : FiberId) (p p' : PriorityLevel)
    (h1 : Heap) (a1 : FiberId) (hc1 : cloneFiber h fid p = some (h1, a1))
    (h2 : Heap) (a2 : FiberId) (hc2 : cloneFiber h1 fid p' = some (h2, a2)) :
    a2 = a1 ∧ h2.size = h1.size ∧ h1.size ≤ h.size + 1 ∧
    h2.get? a1 = (h1.get? a1).map
      (fun f => { f with pendingWorkPriority := p' }) := by
  obtain ⟨F, A, hF, hA, hFalt, hsn, hch, hcip, hsib, hpp, hpwp, hnef, hfef, hlef, hsz⟩ :=
    cloneFiber_post h fid p h1 a1 hc1
  rw [cloneFiber_refresh hF hFalt hA p'] at hc2
  rw [Option.some.injEq, Prod.mk.injEq] at hc2
  obtain ⟨rfl, rfl⟩ := hc2
  have ha1 := Heap.lt_size_of_get? hA
  refine ⟨rfl, Heap.size_set .., hsz, ?_⟩
  rw [Heap.get?_set_self _ _ _ ha1, hA]
  simp only [Option.map_some', Option.some.injEq]
  cases A
  simp_all

/-- Witness for C3: two successive clones on a concrete heap. -/
theorem cloneFiber_idempotent_witness :
    clone2.2 = clone1.2 ∧ (clone2.1).size = (clone1.1).size ∧
    (clone1.1).size ≤ heap1.size + 1 ∧
    (clone2.1).get? clone1.2 = ((clone1.1).get? clone1.2).map
      (fun f => { f with pendingWorkPriority := 2 }) :=
  cloneFiber_idempotent heap1 0 1 2 clone1.1 clone1.2 (by decide)
    clone2.1 clone2.2 (by decide)

/-- C5: kind resolution from an element: a function marked as a React
component class yields ClassComponent, any other function yields
IndeterminateComponent, a string yields HostComponent; in each case the
fiber's `type` is the element's type, `pendingProps` its props, and
`pendingWorkPriority` the caller's priority. -/
theorem createFiberFromElement_kind_resolution :
    ∀ (h : Heap) (key : Option String) (props : JSVal) (p : PriorityLevel),
      (∀ b : Bool, ∃ h' id f,
        createFiberFromElement h ⟨.func b, key, props⟩ p = some (.ok (h', id)) ∧
        h'.get? id = some f ∧
        f.tag = (if b then TypeOfWork.ClassComponent
                 else TypeOfWork.IndeterminateComponent) ∧
        f.type = JSVal.func b ∧ f.key = key ∧ f.pendingProps = props ∧
        f.pendingWorkPriority = p) ∧
      (∀ s : String, ∃ h' id f,
        createFiberFromElement h ⟨.string s, key, props⟩ p = some (.ok (h', id)) ∧
        h'.get? id = some f ∧ f.tag = TypeOfWork.HostComponent ∧
        f.type = JSVal.string s ∧ f.key = key ∧ f.pendingProps = props ∧
        f.pendingWorkPriority = p) := by
  intro h key props p
  constructor
  · intro b
    cases b
    · exact ⟨_, _, _, rfl, Heap.get?_alloc_self .., rfl, rfl, rfl, rfl, rfl⟩
    · exact ⟨_, _, _, rfl, Heap.get?_alloc_self .., rfl, rfl, rfl, rfl, rfl⟩
  · intro s
    exact ⟨_, _, _, rfl, Heap.get?_alloc_self .., rfl, rfl, rfl, rfl, rfl⟩

/-- C6: an element type that is neither a function, nor a string, nor a
non-null object makes both the type resolver and the element constructor
fail with the unknown-component-type error carrying the value's runtime
type. -/
theorem createFiberFromElementType_invalid (type : JSVal) (key : Option String)
    (h : Heap) (props : JSVal) (p : PriorityLevel)
    (hfn : jsTypeof type ≠ "function") (hstr : jsTypeof type ≠ "string")
    (hobj : ¬(jsTypeof type = "object" ∧ type ≠ JSVal.null)) :
    createFiberFromElementType type key =
      .error ("Unknown component type: " ++ jsTypeof type) ∧
    createFiberFromElement h ⟨type, key, props⟩ p =
      some (.error ("Unknown component type: " ++ jsTypeof type)) := by
  have h1 : createFiberFromElementType type key =
      .error ("Unknown component type: " ++ jsTypeof type) := by
    unfold createFiberFromElementType
    rw [if_neg hfn, if_neg hstr, if_neg hobj]
  exact ⟨h1, by simp [createFiberFromElement, h1]⟩

/-- Witness for C6 at the spec's example input, the number 42. -/
theorem createFiberFromElementType_invalid_witness :
    jsTypeof (JSVal.number 42) ≠ "function" ∧
    createFiberFromElementType (JSVal.number 42) none =
      .error ("Unknown component type: number") ∧
    createFiberFromElement ⟨[]⟩ ⟨JSVal.number 42, none, JSVal.null⟩ 1 =
      some (.error ("Unknown component type: number")) :=
  ⟨by decide, createFiberFromElementType_invalid (JSVal.number 42) none
    ⟨[]⟩ JSVal.null 1 (by decide) (by decide) (by decide)⟩

/-- C10: a non-null object passed as an element type is returned as-is,
whatever record it holds: same id, no new allocation, and its
`pendingProps` and `pendingWorkPriority` overwritten in place. -/
theorem createFiberFromElement_object_passthrough (h : Heap) (id : FiberId)
    (f : Fiber) (key : Option String) (props : JSVal) (p : PriorityLevel)
    (hf : h.get? id = some f) :
    createFiberFromElement h ⟨JSVal.object id, key, props⟩ p =
      some (.ok (h.set id { f with pendingProps := props
                                   pendingWorkPriority := p }, id)) ∧
    (h.set id { f with pendingProps := props
                       pendingWorkPriority := p }).size = h.size := by
  refine ⟨?_, Heap.size_set ..⟩
  simp [createFiberFromElement, createFiberFromElementType, jsTypeof, hf]

/-- Witness for C10: a concrete fiber object passed through and mutated. -/
theorem createFiberFromElement_object_passthrough_witness :
    heap1.get? 0 = some (createFiber .HostComponent none) ∧
    (createFiberFromElement heap1 ⟨JSVal.object 0, none, JSVal.number 7⟩ 2 =
      some (.ok (heap1.set 0 { createFiber .HostComponent none with
        pendingProps := JSVal.number 7, pendingWorkPriority := 2 }, 0)) ∧
     (heap1.set 0 { createFiber .HostComponent none with
        pendingProps := JSVal.number 7, pendingWorkPriority := 2 }).size =
       heap1.size) :=
  ⟨by decide, createFiberFromElement_object_passthrough heap1 0
    (createFiber .HostComponent none) none (JSVal.number 7) 2 (by decide)⟩
